import Mathlib

/-!
Verification of the OpenSeaMap-AIS diagnostic scripts.

This file gives a shallow embedding, in Lean, of the pure logic of the two
diagnostic tools of the repository:

* `ais_browser_test.py` (the browser session Monitor): the network-log
  capture loop, the result analysis with its root-cause classification, the
  checkbox locator strategies, and the process exit codes of `main`;
* `ais_diagnostic.py` (the connectivity Prober): the recommendation
  generation, the fixed battery of network calls with their timeouts, and
  the exit behaviour of the `__main__` guard.

Effectful pieces (Selenium calls, HTTP requests, file writes) are modelled
by passing their observable outcomes in as explicit data; every function
below is transcribed from the corresponding Python function.
-/

namespace AisBrowserTest

/-- Lowercasing of a string, character by character; models the Python
`url.lower()` call used by the keyword filter. -/
def strLower (s : String) : String := ⟨s.data.map Char.toLower⟩

/-- Substring test on character lists; models the Python `keyword in url`
containment test (the empty needle is contained in everything). -/
def containsSublist (needle hay : List Char) : Bool :=
  match hay with
  | [] => needle.isEmpty
  | _ :: t => needle.isPrefixOf hay || containsSublist needle t

/-- Models `any(keyword in url.lower() for keyword in keywords)` from
`capture_network_logs`. -/
def keywordMatch (keywords : List String) (url : String) : Bool :=
  keywords.any fun kw => containsSublist kw.data (strLower url).data

/-- Keyword list applied to `Network.requestWillBeSent` events
(ais_browser_test.py lines 181-184). -/
def requestKeywords : List String :=
  ["ais", "marine", "traffic", "ship", "vessel",
   "getais", "marinetraffic", "aishub", "aisstream"]

/-- Keyword list applied to `Network.responseReceived` events
(ais_browser_test.py lines 200-202). -/
def responseKeywords : List String :=
  ["ais", "marine", "traffic", "ship", "vessel"]

/-- Captured Request Record: the dictionary appended to `relevant_requests`
in `capture_network_logs`. A fresh record has only the first four fields;
the optional fields are added by later response or failure events. -/
structure CapturedRequest where
  timestamp : String
  url : String
  httpMethod : String
  requestId : String
  status : Option Nat := none
  status_text : Option String := none
  content_type : Option String := none
  failed : Bool := false
  error : Option String := none
deriving DecidableEq

/-- Decoded browser performance-log entries, as dispatched on by the
`method` field in `capture_network_logs`. `otherOrMalformed` covers both
entries with an unrecognised method and entries whose JSON fails to parse
(which the source skips silently). -/
inductive BrowserLogEvent where
  | requestWillBeSent (requestId url httpMethod timestamp : String)
  | responseReceived (requestId url : String) (status : Nat)
      (statusText mimeType : String)
  | loadingFailed (requestId errorText : String)
  | otherOrMalformed
deriving DecidableEq

/-- One iteration of the event dispatch in `capture_network_logs`
(ais_browser_test.py lines 169-235): a matching sent event appends a new
record unconditionally; a matching response event updates every record with
the same request identifier; a loading-failed event marks every record with
the same request identifier as failed and stores the error text. -/
def processLogEvent (relevant_requests : List CapturedRequest) :
    BrowserLogEvent → List CapturedRequest
  | .requestWillBeSent requestId url httpMethod timestamp =>
      if keywordMatch requestKeywords url then
        relevant_requests ++
          [{ timestamp := timestamp, url := url,
             httpMethod := httpMethod, requestId := requestId }]
      else relevant_requests
  | .responseReceived requestId url status statusText mimeType =>
      if keywordMatch responseKeywords url then
        relevant_requests.map fun req =>
          if req.requestId = requestId then
            { req with status := some status,
                       status_text := some statusText,
                       content_type := some mimeType }
          else req
      else relevant_requests
  | .loadingFailed requestId errorText =>
      relevant_requests.map fun req =>
        if req.requestId = requestId then
          { req with failed := true, error := some errorText }
        else req
  | .otherOrMalformed => relevant_requests

/-- The capture loop of `capture_network_logs`, folded over the sequence of
log events observed during the capture window. -/
def capture_network_logs (events : List BrowserLogEvent) :
    List CapturedRequest :=
  events.foldl processLogEvent []

/-- Analysis Summary produced by `analyze_results`
(ais_browser_test.py lines 278-325). -/
structure AnalysisSummary where
  ais_requests_found : Nat
  successful_requests : Nat
  failed_requests : Nat
  blocked_requests : Nat
  javascript_errors : Nat
  findings : List String
  root_cause : String
deriving DecidableEq

/-- Root-cause message for zero captured AIS requests. -/
def rc_not_implemented : String :=
  "No AIS requests detected - layer may not be implemented or checkbox not functioning"

/-- Root-cause message for blocked (401/403) requests. -/
def rc_blocked : String :=
  "AIS requests are being blocked (401/403) - API likely requires authentication"

/-- Root-cause message for failed requests. -/
def rc_failing : String :=
  "AIS requests are failing - check network connectivity or API endpoint changes"

/-- Root-cause message for successful requests. -/
def rc_rendering : String :=
  "AIS requests successful - issue may be in data rendering/display"

/-- Root-cause message when nothing was classified. -/
def rc_indeterminate : String :=
  "Unable to determine - requests made but no responses captured"

/-- Per-request classification step of the loop in `analyze_results`
(ais_browser_test.py lines 292-311): a failed record counts as failed; else
a record with a status counts as successful (2xx), blocked (401/403) or
failed (anything else); a record with neither is not counted at all. -/
def analyzeStep (analysis : AnalysisSummary) (req : CapturedRequest) :
    AnalysisSummary :=
  if req.failed then
    { analysis with
        failed_requests := analysis.failed_requests + 1,
        findings := analysis.findings ++
          ["FAILED REQUEST: " ++ req.url ++ " - " ++
            req.error.getD "Unknown error"] }
  else
    match req.status with
    | some s =>
        if 200 ≤ s ∧ s < 300 then
          { analysis with
              successful_requests := analysis.successful_requests + 1 }
        else if s = 401 ∨ s = 403 then
          { analysis with
              blocked_requests := analysis.blocked_requests + 1,
              findings := analysis.findings ++
                ["BLOCKED REQUEST: " ++ req.url ++ " - HTTP " ++
                  toString s ++ " " ++ req.status_text.getD "None"] }
        else
          { analysis with
              failed_requests := analysis.failed_requests + 1,
              findings := analysis.findings ++
                ["HTTP ERROR: " ++ req.url ++ " - " ++ toString s ++
                  " " ++ req.status_text.getD "None"] }
    | none => analysis

/-- Root-cause selection chain of `analyze_results`
(ais_browser_test.py lines 313-323). -/
def chooseRootCause (analysis : AnalysisSummary) : String :=
  if analysis.ais_requests_found = 0 then rc_not_implemented
  else if analysis.blocked_requests > 0 then rc_blocked
  else if analysis.failed_requests > 0 then rc_failing
  else if analysis.successful_requests > 0 then rc_rendering
  else rc_indeterminate

/-- The function `analyze_results`: counts and findings are accumulated
over the captured requests, then the root cause is chosen from the
aggregate counts. -/
def analyze_results (network_requests : List CapturedRequest)
    (js_errors : List String) : AnalysisSummary :=
  let analysis := network_requests.foldl analyzeStep
    { ais_requests_found := network_requests.length
      successful_requests := 0
      failed_requests := 0
      blocked_requests := 0
      javascript_errors := js_errors.length
      findings := []
      root_cause := "" }
  { analysis with root_cause := chooseRootCause analysis }

/-- The root-cause priority exactly as the specification states it, as a
pure function of the four aggregate counts. -/
def rootCauseOfCounts (found blocked failed successful : Nat) : String :=
  if found = 0 then rc_not_implemented
  else if 1 ≤ blocked then rc_blocked
  else if 1 ≤ failed then rc_failing
  else if 1 ≤ successful then rc_rendering
  else rc_indeterminate

theorem chooseRootCause_eq_counts (analysis : AnalysisSummary) :
    chooseRootCause analysis =
      rootCauseOfCounts analysis.ais_requests_found
        analysis.blocked_requests analysis.failed_requests
        analysis.successful_requests := by
  unfold chooseRootCause rootCauseOfCounts
  split_ifs <;> first | rfl | omega

end AisBrowserTest

namespace AisBrowserTest

/-- C1: the root_cause of every Analysis Summary produced by
`analyze_results` is a pure function of the aggregate counts, chosen by
fixed priority: zero requests found gives the not-implemented message, else
at least one blocked request gives the authentication message, else at
least one failed request gives the connectivity message, else at least one
successful request gives the rendering message, else the indeterminate
message. -/
theorem C1_root_cause_priority (network_requests : List CapturedRequest)
    (js_errors : List String) :
    (analyze_results network_requests js_errors).root_cause =
      rootCauseOfCounts
        (analyze_results network_requests js_errors).ais_requests_found
        (analyze_results network_requests js_errors).blocked_requests
        (analyze_results network_requests js_errors).failed_requests
        (analyze_results network_requests js_errors).successful_requests := by
  unfold analyze_results
  dsimp only
  rw [chooseRootCause_eq_counts]

end AisBrowserTest

namespace AisBrowserTest

/-- A captured request with neither a failure flag nor a status: a request
that was sent during the capture window but whose response or failure event
was never observed. -/
def pendingRequest : CapturedRequest :=
  { timestamp := "t0", url := "https://x/getais", httpMethod := "GET",
    requestId := "1" }

/-- A captured request whose observed status is a redirect (HTTP 302),
outside 2xx and distinct from 401 and 403. -/
def redirectRequest : CapturedRequest :=
  { timestamp := "t1", url := "https://x/ais", httpMethod := "GET",
    requestId := "2", status := some 302, status_text := some "Found" }

/-- An all-zero Analysis Summary, the accumulator analyze_results starts
from when no request and no console error was captured. -/
def emptySummary : AnalysisSummary :=
  { ais_requests_found := 0, successful_requests := 0, failed_requests := 0,
    blocked_requests := 0, javascript_errors := 0, findings := [],
    root_cause := "" }

end AisBrowserTest

namespace AisBrowserTest

/-- C10: in `analyze_results`, a record with no failed flag and no status is
counted in none of the three outcome counters (so the three counters can sum
to strictly less than ais_requests_found, shown here on a concrete run with
one pending request), and a record with a status outside 2xx that is neither
401 nor 403 (for example a 302 redirect) is counted as a failed request. -/
theorem C10_uncounted_and_error_status_requests
    (analysis : AnalysisSummary) (req : CapturedRequest) (s : Nat)
    (hf : req.failed = false) :
    (req.status = none → analyzeStep analysis req = analysis) ∧
    (req.status = some s → ¬(200 ≤ s ∧ s < 300) → s ≠ 401 → s ≠ 403 →
      (analyzeStep analysis req).failed_requests =
          analysis.failed_requests + 1 ∧
        (analyzeStep analysis req).successful_requests =
          analysis.successful_requests ∧
        (analyzeStep analysis req).blocked_requests =
          analysis.blocked_requests) ∧
    ((analyze_results [pendingRequest] []).successful_requests +
        (analyze_results [pendingRequest] []).failed_requests +
        (analyze_results [pendingRequest] []).blocked_requests <
      (analyze_results [pendingRequest] []).ais_requests_found) := by
  refine ⟨?_, ?_, by decide⟩
  · intro hs
    simp [analyzeStep, hf, hs]
  · intro hs h2xx h401 h403
    simp [analyzeStep, hf, hs, h2xx, h401, h403]

/-- Witness for C10 at a concrete redirect record: the 302 response is
counted as one more failed request and changes no other counter. -/
theorem C10_uncounted_and_error_status_requests_witness :
    (analyzeStep emptySummary redirectRequest).failed_requests =
        emptySummary.failed_requests + 1 ∧
      (analyzeStep emptySummary redirectRequest).successful_requests =
        emptySummary.successful_requests ∧
      (analyzeStep emptySummary redirectRequest).blocked_requests =
        emptySummary.blocked_requests :=
  (C10_uncounted_and_error_status_requests emptySummary redirectRequest 302
    rfl).2.1 rfl (by decide) (by decide) (by decide)

end AisBrowserTest

namespace AisBrowserTest

/-- Predicate selecting the request-sent events that create a record
carrying the given request identifier: the identifier matches and the URL
passes the keyword filter. -/
def isMatchingSent (requestId : String) : BrowserLogEvent → Bool
  | .requestWillBeSent rid url _ _ =>
      rid == requestId && keywordMatch requestKeywords url
  | _ => false

theorem countP_processLogEvent (acc : List CapturedRequest)
    (e : BrowserLogEvent) (requestId : String) :
    (processLogEvent acc e).countP (fun r => r.requestId == requestId) =
      acc.countP (fun r => r.requestId == requestId) +
        (if isMatchingSent requestId e then 1 else 0) := by
  cases e with
  | requestWillBeSent rid url m t =>
      by_cases hk : keywordMatch requestKeywords url
      · by_cases hr : rid = requestId <;>
          simp [processLogEvent, hk, isMatchingSent, List.countP_append,
            List.countP_cons, hr]
      · simp [processLogEvent, hk, isMatchingSent]
  | responseReceived rid url st stx mt =>
      by_cases hk : keywordMatch responseKeywords url
      · simp only [processLogEvent, hk, if_true, List.countP_map,
          isMatchingSent, if_false, Nat.add_zero]
        apply List.countP_congr
        intro r _
        by_cases hr : r.requestId = rid <;> simp [Function.comp, hr]
      · simp [processLogEvent, hk, isMatchingSent]
  | loadingFailed rid err =>
      simp only [processLogEvent, List.countP_map, isMatchingSent,
        if_false, Nat.add_zero]
      apply List.countP_congr
      intro r _
      by_cases hr : r.requestId = rid <;> simp [Function.comp, hr]
  | otherOrMalformed => simp [processLogEvent, isMatchingSent]

theorem countP_capture_aux (events : List BrowserLogEvent)
    (requestId : String) :
    ∀ acc : List CapturedRequest,
      (events.foldl processLogEvent acc).countP
          (fun r => r.requestId == requestId) =
        acc.countP (fun r => r.requestId == requestId) +
          events.countP (isMatchingSent requestId) := by
  induction events with
  | nil => intro acc; simp
  | cons e t ih =>
      intro acc
      simp only [List.foldl_cons, List.countP_cons, ih,
        countP_processLogEvent]
      omega

/-- Two request-sent events carrying the same identifier and a matching
URL, as observed for a redirected request. -/
def duplicateSentEvents : List BrowserLogEvent :=
  [.requestWillBeSent "42" "ais" "GET" "t1",
   .requestWillBeSent "42" "ais" "GET" "t2"]

/-- C6 counterexample: processing two request-sent events with the same
request identifier yields two Captured Request Records carrying that
identifier, so an identifier does not occur in at most one record. -/
theorem C6_counterexample :
    ¬ ((capture_network_logs duplicateSentEvents).countP
        (fun r => r.requestId == "42") ≤ 1) := by decide

/-- C6 amended: request identifiers are not deduplicated by the capture
loop; the number of collected records carrying a given identifier equals
the number of request-sent events with that identifier and a URL passing
the keyword filter, so a duplicated identifier yields duplicate records. -/
theorem C6_request_id_multiplicity (events : List BrowserLogEvent)
    (requestId : String) :
    (capture_network_logs events).countP
        (fun r => r.requestId == requestId) =
      events.countP (isMatchingSent requestId) := by
  simpa using countP_capture_aux events requestId []

end AisBrowserTest

namespace AisBrowserTest

/-- C8 amended: after a matching request-sent event and a later
loading-failed event carrying the same request identifier, every collected
record with that identifier has failed = true and carries exactly the error
text of the event (which is therefore non-empty exactly when the provider
sent a non-empty error text), and at least one such record exists. -/
theorem C8_loading_failed_marks_record (pre : List BrowserLogEvent)
    (requestId url httpMethod timestamp errorText : String)
    (hurl : keywordMatch requestKeywords url = true) :
    (∃ r ∈ capture_network_logs (pre ++
        [BrowserLogEvent.requestWillBeSent requestId url httpMethod timestamp,
         BrowserLogEvent.loadingFailed requestId errorText]),
       r.requestId = requestId) ∧
    (∀ r ∈ capture_network_logs (pre ++
        [BrowserLogEvent.requestWillBeSent requestId url httpMethod timestamp,
         BrowserLogEvent.loadingFailed requestId errorText]),
       r.requestId = requestId →
         r.failed = true ∧ r.error = some errorText) := by
  have hcap : capture_network_logs (pre ++
      [BrowserLogEvent.requestWillBeSent requestId url httpMethod timestamp,
       BrowserLogEvent.loadingFailed requestId errorText]) =
      (capture_network_logs pre).map (fun req : CapturedRequest =>
        if req.requestId = requestId then
          { req with failed := true, error := some errorText }
        else req) ++
      [{ timestamp := timestamp, url := url, httpMethod := httpMethod,
         requestId := requestId, failed := true,
         error := some errorText }] := by
    unfold capture_network_logs
    rw [List.foldl_append]
    simp [processLogEvent, hurl]
  rw [hcap]
  constructor
  · exact ⟨_, List.mem_append_right _ (List.mem_singleton_self _), rfl⟩
  · intro r hr hid
    rcases List.mem_append.mp hr with hmem | hmem
    · obtain ⟨r0, _, hr0⟩ := List.mem_map.mp hmem
      by_cases h : r0.requestId = requestId
      · subst hr0
        simp [h]
      · subst hr0
        simp [h] at hid
    · rw [List.mem_singleton.mp hmem]
      exact ⟨rfl, rfl⟩

/-- The single record collected from a matching request-sent event followed
by a loading-failed event with error text net::ERR_FAILED. -/
def failedRecord : CapturedRequest :=
  { timestamp := "t0", url := "ais", httpMethod := "GET", requestId := "9",
    failed := true, error := some "net::ERR_FAILED" }

/-- Witness for C8 at a concrete pair of events with a matching URL and a
non-empty provider error text: the collected record is marked failed and
carries that error text. -/
theorem C8_loading_failed_marks_record_witness :
    failedRecord.failed = true ∧ failedRecord.error = some "net::ERR_FAILED" :=
  (C8_loading_failed_marks_record [] "9" "ais" "GET" "t0" "net::ERR_FAILED"
    (by decide)).2 failedRecord (by decide) rfl

/-- A matching request-sent event followed by a loading-failed event whose
provider error text is the empty string. -/
def emptyErrorEvents : List BrowserLogEvent :=
  [.requestWillBeSent "7" "ais" "GET" "t",
   .loadingFailed "7" ""]

/-- C8 counterexample: when the loading-failed event carries an empty error
text, the resulting record has failed = true but its error string is the
empty string, so the record does not carry a non-empty error string. -/
theorem C8_counterexample :
    ∃ r ∈ capture_network_logs emptyErrorEvents,
      r.requestId = "7" ∧ r.failed = true ∧ r.error = some "" ∧
        (r.error.getD "x").length = 0 := by decide

end AisBrowserTest

namespace AisBrowserTest

/-- Observable outcome of `enable_ais_layer`
(ais_browser_test.py lines 120-156), abstracted over the checkbox state:
`checkbox` is none when no locator strategy matched, otherwise the selected
state of the located checkbox; `clicks` counts the click calls issued on
the checkbox. -/
structure EnableOutcome where
  success : Bool
  checkbox : Option Bool
  clicks : Nat
deriving DecidableEq

/-- The function `enable_ais_layer`: when the checkbox is missing it
reports failure; when the checkbox is already selected it clicks nothing;
otherwise it clicks once, which selects the checkbox. Either way the
operation reports success when the checkbox was found. -/
def enable_ais_layer (checkbox : Option Bool) : EnableOutcome :=
  match checkbox with
  | none => { success := false, checkbox := none, clicks := 0 }
  | some selected =>
      if selected then { success := true, checkbox := some true, clicks := 0 }
      else { success := true, checkbox := some true, clicks := 1 }

/-- C9: `enable_ais_layer` clicks the checkbox only when it is not already
selected: on an already selected checkbox it performs no click, leaves the
state unchanged and still reports success; moreover enabling is idempotent
on the checkbox state, and a second run after any successful run performs
no click. -/
theorem C9_enable_ais_layer_idempotent (checkbox : Option Bool)
    (h : checkbox = some true) :
    enable_ais_layer checkbox =
      { success := true, checkbox := checkbox, clicks := 0 } ∧
    (∀ cb : Option Bool,
       (enable_ais_layer (enable_ais_layer cb).checkbox).checkbox =
         (enable_ais_layer cb).checkbox) ∧
    (∀ cb : Option Bool, (enable_ais_layer cb).success = true →
       (enable_ais_layer (enable_ais_layer cb).checkbox).clicks = 0) := by
  subst h
  refine ⟨rfl, ?_, ?_⟩
  · intro cb
    rcases cb with _ | b
    · rfl
    · cases b <;> rfl
  · intro cb hcb
    rcases cb with _ | b
    · simp [enable_ais_layer] at hcb
    · cases b <;> rfl

/-- Witness for C9 at the already-selected checkbox state: no click is
issued, the state is unchanged, success is reported, and a repeated run
clicks nothing either. -/
theorem C9_enable_ais_layer_idempotent_witness :
    enable_ais_layer (some true) =
      { success := true, checkbox := some true, clicks := 0 } ∧
    (enable_ais_layer (enable_ais_layer (some false)).checkbox).checkbox =
      (enable_ais_layer (some false)).checkbox ∧
    (enable_ais_layer (enable_ais_layer (some false)).checkbox).clicks = 0 :=
  ⟨(C9_enable_ais_layer_idempotent (some true) rfl).1,
   (C9_enable_ais_layer_idempotent (some true) rfl).2.1 (some false),
   (C9_enable_ais_layer_idempotent (some true) rfl).2.2 (some false) rfl⟩

end AisBrowserTest

namespace AisBrowserTest

/-- Kinds of element locators used by `find_ais_checkbox`. -/
inductive LocatorKind where
  | byId
  | byCss
  | byXPath
deriving DecidableEq

/-- The ordered locator-strategy list `possible_selectors` of
`find_ais_checkbox` (ais_browser_test.py lines 94-100), transcribed
verbatim: one exact identifier, one CSS selector, and three XPath
fallbacks (one matching on the id attribute, two matching on label text). -/
def possible_selectors : List (LocatorKind × String) :=
  [(.byId, "checkLayerAis"),
   (.byCss, "input[id=\x27checkLayerAis\x27]"),
   (.byXPath, "//input[@type=\x27checkbox\x27 and contains(@id, \x27Ais\x27)]"),
   (.byXPath, "//label[contains(text(), \x27Marine Traffic\x27)]/../input"),
   (.byXPath, "//label[contains(text(), \x27AIS\x27)]/../input")]

/-- The function `find_ais_checkbox`, abstracted over the DOM lookup
`find_element`: each selector is tried in order and the first element found
is returned; a lookup miss moves on to the next selector. -/
def find_ais_checkbox {α : Type}
    (find_element : LocatorKind × String → Option α) : Option α :=
  possible_selectors.findSome? find_element

/-- Result of `run_full_diagnostic` (ais_browser_test.py lines 327-388):
either an error dictionary from a setup or load failure, or the completed
Analysis Summary. -/
inductive DiagnosticResult where
  | errored (msg : String)
  | completed (analysis : AnalysisSummary)
deriving DecidableEq

/-- Control flow of `run_full_diagnostic`: a driver failure or a page-load
failure aborts with an error result; a failure of `enable_ais_layer`
(checkbox not found) only prints a note and the run continues in
observe-only mode; otherwise the captured events are analyzed. -/
def run_full_diagnostic (driver_ok load_ok enable_ok : Bool)
    (events : List BrowserLogEvent) (js_errors : List String) :
    DiagnosticResult :=
  if !driver_ok then .errored "Failed to initialize WebDriver"
  else if !load_ok then .errored "Failed to load OpenSeaMap"
  else DiagnosticResult.completed
    (analyze_results (capture_network_logs events) js_errors)

/-- C7 counterexample: the locator-strategy list of `find_ais_checkbox` has
five entries, not four, and three of them are XPath fallbacks, so the
Monitor does not try exactly four strategies with two XPath text-based
fallbacks. -/
theorem C7_counterexample :
    possible_selectors.length = 5 ∧
    possible_selectors.countP (fun sel => sel.1 == LocatorKind.byXPath) = 3 := by
  decide

/-- C7 amended: the Monitor tries an ordered list of exactly five locator
strategies (exact identifier, CSS selector, one XPath id-based fallback and
two XPath text-based fallbacks), returning the first element found: when
the identifier strategy matches, its element is the result, and the lookup
returns nothing exactly when every strategy misses; in that case the run
does not abort but continues in observe-only mode, its result being
independent of whether the checkbox could be enabled. -/
theorem C7_locator_strategies {α : Type}
    (find_element : LocatorKind × String → Option α)
    (driver_ok load_ok : Bool) (events : List BrowserLogEvent)
    (js_errors : List String) :
    possible_selectors.length = 5 ∧
    (∀ e : α, find_element (LocatorKind.byId, "checkLayerAis") = some e →
       find_ais_checkbox find_element = some e) ∧
    (find_ais_checkbox find_element = none ↔
       ∀ sel ∈ possible_selectors, find_element sel = none) ∧
    (run_full_diagnostic driver_ok load_ok false events js_errors =
       run_full_diagnostic driver_ok load_ok true events js_errors) := by
  refine ⟨rfl, ?_, ?_, rfl⟩
  · intro e he
    simp [find_ais_checkbox, possible_selectors, List.findSome?_cons, he]
  · simpa [find_ais_checkbox] using
      (List.findSome?_eq_none_iff
        (l := possible_selectors) (p := find_element))

end AisBrowserTest

namespace AisBrowserTest

/-- Top-level outcome of one Monitor run as seen by `main`
(ais_browser_test.py lines 409-427): the diagnostic finished with a result
dictionary, or the run was interrupted from the keyboard, or an uncaught
exception escaped. -/
inductive MonitorOutcome where
  | finished (results : DiagnosticResult)
  | interrupted
  | fatalError (msg : String)
deriving DecidableEq

/-- Exit-code selection of `main`: 1 when the result carries an error or an
uncaught exception escaped, 2 when the completed analysis has failed or
blocked requests, 130 on keyboard interrupt, 0 otherwise. -/
def mainExitCode : MonitorOutcome → Nat
  | .interrupted => 130
  | .fatalError _ => 1
  | .finished (.errored _) => 1
  | .finished (.completed analysis) =>
      if analysis.failed_requests > 0 ∨ analysis.blocked_requests > 0 then 2
      else 0

/-- Event sequence of a run that observes exactly one AIS request, answered
with HTTP 401. -/
def blockedRunEvents : List BrowserLogEvent :=
  [.requestWillBeSent "1" "ais" "GET" "t0",
   .responseReceived "1" "ais" 401 "Unauthorized" "text/html"]

/-- C2: the Monitor process exit code is 1 on an uncaught exception or when
the diagnostic result carries an error, 130 on keyboard interrupt, 2 when
the run completes with failed or blocked requests, and 0 otherwise; in
particular a completed run with one blocked request and zero failed
requests exits 2, and a completed run with zero captured requests and no
errors exits 0. -/
theorem C2_exit_codes :
    (∀ msg, mainExitCode (.fatalError msg) = 1) ∧
    (∀ msg, mainExitCode (.finished (.errored msg)) = 1) ∧
    mainExitCode .interrupted = 130 ∧
    (∀ analysis, mainExitCode (.finished (.completed analysis)) =
       if 0 < analysis.failed_requests ∨ 0 < analysis.blocked_requests
       then 2 else 0) ∧
    ((analyze_results (capture_network_logs blockedRunEvents)
          []).blocked_requests = 1 ∧
      (analyze_results (capture_network_logs blockedRunEvents)
          []).failed_requests = 0 ∧
      mainExitCode (.finished
        (run_full_diagnostic true true true blockedRunEvents [])) = 2) ∧
    ((analyze_results (capture_network_logs []) []).ais_requests_found = 0 ∧
      mainExitCode (.finished
        (run_full_diagnostic true true true [] [])) = 0) := by
  refine ⟨fun msg => rfl, fun msg => rfl, rfl, fun analysis => rfl,
    ⟨?_, ?_, ?_⟩, ⟨?_, ?_⟩⟩ <;> decide

end AisBrowserTest

namespace AisDiagnostic

/-- Probe Result: the (success, message) pair produced by every check of
ais_diagnostic.py. -/
structure ProbeResult where
  success : Bool
  message : String
deriving DecidableEq

/-- The `test_results` dictionary assembled by `main`
(ais_diagnostic.py lines 283-331), with the keys consulted by
`generate_recommendations`; `openseamap_endpoints` is the nested mapping
returned by `test_openseamap_api_endpoints`, as an association list. -/
structure TestResults where
  marinetraffic_tiles : ProbeResult
  marinetraffic_web : ProbeResult
  aishub_api : ProbeResult
  aisstream : ProbeResult
  openseamap_endpoints : List (String × ProbeResult)
  github_issues : ProbeResult
deriving DecidableEq

/-- Recommendation emitted when the MarineTraffic tile service failed. -/
def rec_commercialized : String :=
  "MarineTraffic tile service is not accessible. This was the primary AIS data source. MarineTraffic has commercialized their API (requires paid subscription)."

/-- Recommendation emitted when the AISHub API is reachable. -/
def rec_aishub : String :=
  "AISHub.net API is accessible and was mentioned as an alternative in Issue #63. Consider migrating to AISHub (requires registration and data sharing)."

/-- Recommendation emitted when AISstream.io is reachable. -/
def rec_aisstream : String :=
  "AISstream.io is accessible. This is a modern WebSocket-based AIS provider. Consider this as a potential alternative data source."

/-- Recommendation emitted when no OpenSeaMap endpoint value is truthy. -/
def rec_server_issue : String :=
  "OpenSeaMap API endpoints are not responding. This could indicate server issues."

/-- Default recommendation emitted when the list would otherwise be empty. -/
def rec_default : String :=
  "All services appear accessible. The issue may be in the client-side JavaScript or in API authentication/credentials."

/-- Models the Python expression `any(test_results[\x27openseamap_endpoints\x27].values())`:
the dictionary values are (success, message) pairs, and a pair is truthy in
Python whatever its boolean component, so the expression is true exactly
when the mapping is non-empty. -/
def anyTruthyValues (endpoints : List (String × ProbeResult)) : Bool :=
  !endpoints.isEmpty

/-- The function `generate_recommendations`
(ais_diagnostic.py lines 242-275): four independent if statements each
append their message, and the default message is appended only when the
list stayed empty. -/
def generate_recommendations (test_results : TestResults) : List String :=
  let recommendations : List String := []
  let recommendations :=
    if !test_results.marinetraffic_tiles.success then
      recommendations ++ [rec_commercialized]
    else recommendations
  let recommendations :=
    if test_results.aishub_api.success then
      recommendations ++ [rec_aishub]
    else recommendations
  let recommendations :=
    if test_results.aisstream.success then
      recommendations ++ [rec_aisstream]
    else recommendations
  let recommendations :=
    if !anyTruthyValues test_results.openseamap_endpoints then
      recommendations ++ [rec_server_issue]
    else recommendations
  if recommendations.isEmpty then [rec_default] else recommendations

/-- Probe Results of a run where the tile service failed and AISHub was
reachable at the same time. -/
def c4TestResults : TestResults :=
  { marinetraffic_tiles := { success := false, message := "HTTP 403" }
    marinetraffic_web := { success := false, message := "HTTP 403" }
    aishub_api := { success := true, message := "accessible" }
    aisstream := { success := false, message := "HTTP 500" }
    openseamap_endpoints := [("main_page",
      { success := true, message := "HTTP 200" })]
    github_issues := { success := true, message := "ok" } }

/-- C4 counterexample: with a failed tile service and a reachable AISHub,
`generate_recommendations` emits both the commercialized-API message and
the consider-migrating message, so the branches are independent if
statements, not a mutually exclusive if/else chain. -/
theorem C4_counterexample :
    generate_recommendations c4TestResults =
      [rec_commercialized, rec_aishub] ∧
    rec_commercialized ≠ rec_aishub := by decide

/-- C4 amended: `generate_recommendations` is a pure function of the Probe
Results in which each of four conditions independently appends its message:
a tile-service failure appends the commercialized-API message, a reachable
AISHub appends the consider-migrating message, a reachable AISstream
appends its alternative-provider message, and an empty endpoint mapping
(never obtained in a real run, since Python regards every (success,
message) pair value as truthy) appends the server-issue message; the
default check-client-side message appears exactly when none of the four
conditions holds. -/
theorem C4_recommendations (test_results : TestResults) :
    (rec_commercialized ∈ generate_recommendations test_results ↔
       test_results.marinetraffic_tiles.success = false) ∧
    (rec_aishub ∈ generate_recommendations test_results ↔
       test_results.aishub_api.success = true) ∧
    (rec_aisstream ∈ generate_recommendations test_results ↔
       test_results.aisstream.success = true) ∧
    (rec_server_issue ∈ generate_recommendations test_results ↔
       test_results.openseamap_endpoints = []) ∧
    (rec_default ∈ generate_recommendations test_results ↔
       (test_results.marinetraffic_tiles.success = true ∧
        test_results.aishub_api.success = false ∧
        test_results.aisstream.success = false ∧
        test_results.openseamap_endpoints ≠ [])) := by
  obtain ⟨⟨tiles, _⟩, _, ⟨aishub, _⟩, ⟨stream, _⟩, endpoints, _⟩ :=
    test_results
  cases tiles <;> cases aishub <;> cases stream <;> cases endpoints <;>
    simp [generate_recommendations, anyTruthyValues, rec_commercialized,
      rec_aishub, rec_aisstream, rec_server_issue, rec_default]

end AisDiagnostic

namespace AisDiagnostic

/-- Top-level outcome of one Prober run as seen by the `__main__` guard
(ais_diagnostic.py lines 392-402): `main` returned normally, or a keyboard
interrupt was caught, or some other exception escaped `main`. -/
inductive ProberOutcome where
  | completed
  | interrupted
  | fatalError (msg : String)
deriving DecidableEq

/-- Exit code of the Prober process for each outcome: a normal return falls
off the end of the script (exit 0), a keyboard interrupt calls sys.exit(0),
and any other escaping exception calls sys.exit(1). -/
def proberExitCode : ProberOutcome → Nat
  | .completed => 0
  | .interrupted => 0
  | .fatalError _ => 1

/-- Outcome of `main` as a function of the assembled Probe Results: every
check catches its own transport errors and returns a (success, message)
pair, so `main` runs the battery to completion whatever the individual
probe outcomes are. -/
def prober_main_outcome (test_results : TestResults) : ProberOutcome :=
  ProberOutcome.completed

/-- C3 counterexample: when an exception escapes the main routine of the
Prober, the process exits with code 1, not 0. -/
theorem C3_counterexample :
    proberExitCode (ProberOutcome.fatalError "boom") ≠ 0 := by decide

/-- C3 amended: the Prober exits 0 when `main` returns, whatever the Probe
Results of the individual checks were (no probe failure is propagated to
the exit status), and also exits 0 on keyboard interrupt; only an exception
escaping the main routine makes it exit 1. -/
theorem C3_exit_codes :
    proberExitCode ProberOutcome.completed = 0 ∧
    proberExitCode ProberOutcome.interrupted = 0 ∧
    (∀ test_results : TestResults,
       proberExitCode (prober_main_outcome test_results) = 0) ∧
    (∀ msg, proberExitCode (ProberOutcome.fatalError msg) = 1) := by
  exact ⟨rfl, rfl, fun _ => rfl, fun _ => rfl⟩

end AisDiagnostic

namespace AisDiagnostic

/-- Kind of a network call issued by the Prober battery. -/
inductive CallKind where
  | dnsLookup
  | httpGet
deriving DecidableEq

/-- Static description of one network call of the fixed battery: the
timeout passed to the call, in seconds (none when the call site passes no
timeout at all), and how many times the call is attempted per run. -/
structure NetworkCall where
  name : String
  kind : CallKind
  timeoutSeconds : Option Nat
  attempts : Nat
deriving DecidableEq

/-- The fixed battery of network calls one Prober run performs, in run
order, transcribed from the call sites of ais_diagnostic.py: the four
`socket.gethostbyname` lookups of `check_dns_resolution` (lines 193-207,
no timeout argument exists for this call), then the eight `requests.get`
calls, every one with `timeout=10` (lines 59, 88, 114, 142, 158, 169, 181
and 216); no call site retries. -/
def prober_battery : List NetworkCall :=
  [{ name := "dns:map.openseamap.org", kind := .dnsLookup,
     timeoutSeconds := none, attempts := 1 },
   { name := "dns:tiles.marinetraffic.com", kind := .dnsLookup,
     timeoutSeconds := none, attempts := 1 },
   { name := "dns:data.aishub.net", kind := .dnsLookup,
     timeoutSeconds := none, attempts := 1 },
   { name := "dns:aisstream.io", kind := .dnsLookup,
     timeoutSeconds := none, attempts := 1 },
   { name := "marinetraffic_tiles", kind := .httpGet,
     timeoutSeconds := some 10, attempts := 1 },
   { name := "marinetraffic_web", kind := .httpGet,
     timeoutSeconds := some 10, attempts := 1 },
   { name := "aishub_api", kind := .httpGet,
     timeoutSeconds := some 10, attempts := 1 },
   { name := "aisstream", kind := .httpGet,
     timeoutSeconds := some 10, attempts := 1 },
   { name := "openseamap_main_page", kind := .httpGet,
     timeoutSeconds := some 10, attempts := 1 },
   { name := "openseamap_api_directory", kind := .httpGet,
     timeoutSeconds := some 10, attempts := 1 },
   { name := "openseamap_getAIS_endpoint", kind := .httpGet,
     timeoutSeconds := some 10, attempts := 1 },
   { name := "github_issues", kind := .httpGet,
     timeoutSeconds := some 10, attempts := 1 }]

/-- C5 counterexample: the DNS resolution checks issue their network call
with no timeout bound at all, so not every check of the battery carries the
fixed 10-second bound. -/
theorem C5_counterexample :
    ∃ c ∈ prober_battery,
      c.kind = CallKind.dnsLookup ∧ c.timeoutSeconds ≠ some 10 := by decide

/-- C5 amended: every call of the fixed battery is attempted exactly once
per run with no retry; every HTTP probe passes the fixed 10-second timeout,
while the four DNS resolution calls pass no timeout bound at all. -/
theorem C5_battery_timeouts (c : NetworkCall) (hc : c ∈ prober_battery) :
    c.attempts = 1 ∧
    (c.kind = CallKind.httpGet → c.timeoutSeconds = some 10) ∧
    (c.kind = CallKind.dnsLookup → c.timeoutSeconds = none) := by
  have h : ∀ x ∈ prober_battery, x.attempts = 1 ∧
      (x.kind = CallKind.httpGet → x.timeoutSeconds = some 10) ∧
      (x.kind = CallKind.dnsLookup → x.timeoutSeconds = none) := by decide
  exact h c hc

/-- The MarineTraffic tile probe entry of the battery. -/
def tileProbeCall : NetworkCall :=
  { name := "marinetraffic_tiles", kind := .httpGet,
    timeoutSeconds := some 10, attempts := 1 }

/-- Witness for C5 at the MarineTraffic tile probe of the battery: it is
attempted once and carries the 10-second timeout. -/
theorem C5_battery_timeouts_witness :
    tileProbeCall.attempts = 1 ∧ tileProbeCall.timeoutSeconds = some 10 :=
  ⟨(C5_battery_timeouts tileProbeCall (by decide)).1,
   (C5_battery_timeouts tileProbeCall (by decide)).2.1 rfl⟩

end AisDiagnostic
